import Mathlib

/-
Verification development for the Obsidian Lofi plugin.

The definitions below are a shallow embedding of the TypeScript sources:
the stream registry (getStreamById), the plugin settings with their
defaults, and the LofiPlugin class state together with its playback
methods (scanAudioFolder, playTrackByPath, playNextTrack,
playPreviousTrack) and its focus-timer methods (startTimer, pauseTimer,
resetTimer, tick, endSession).

Modelling conventions:
- TypeScript numbers holding whole seconds, minutes, volumes and array
  indices are modelled as Int (the code only ever adds, subtracts and
  compares them).
- Nullable references (string | null, number | null, the audio element)
  are modelled as Option.
- new Notice(...) calls append the notice text to a notices list;
  updateStatusBar(text) stores the text in a statusBar field.
  console.log / console.warn / console.error calls are not user visible
  and are not modelled.
- window.setInterval is modelled by an environment: a nextIntervalId
  counter supplies the fresh handle, and liveIntervals is the list of
  interval handles currently registered with the host.
  clearInterval(id) removes id from liveIntervals.
- the asynchronous audioPlayer.play() promise outcome is passed in as a
  Bool parameter playOk (true = the .then branch runs, false = .catch).
-/

namespace ObsidianLofi

/-- Stream descriptor, from the LofiStream interface (the optional
description field becomes Option String). -/
structure LofiStream where
  id : String
  name : String
  url : String
  description : Option String
deriving Repr, DecidableEq

/-- Static stream registry, from PREDEFINED_LOFI_STREAMS in the first
registry source file. -/
def PREDEFINED_LOFI_STREAMS : List LofiStream :=
  [ { id := "local", name := "Local Folder", url := "",
      description := some "Use MP3 files from the configured local folder." },
    { id := "chill-mornings", name := "Chill Mornings",
      url := "https://antares.dribbcast.com/proxy/s8280/stream",
      description := some "A mellow mix for starting your day." },
    { id := "jazzy-afternoons", name := "Jazzy Afternoons",
      url := "https://relay0.r-a-d.io/main.mp3",
      description := some "Smooth jazz vibes for a productive afternoon." },
    { id := "japanese-music", name := "Anime & Japanese Music",
      url := "http://tsuiokuyo.ddns.net:8764/lossy",
      description := some "Broadcasting anime and Japanese music." },
    { id := "lofi-hiphop-radio", name := "Lofi Hip Hop Radio",
      url := "https://streams.fluxfm.de/Chillhop/mp3-128/streams.fluxfm.de/",
      description := some "24/7 lofi hip hop beats." } ]

/-- Resolver getStreamById(id: string | null), from the first registry
source file: null or "local" resolve the reserved local entry, any other
id is looked up with Array.prototype.find (undefined when absent). -/
def getStreamById (id : Option String) : Option LofiStream :=
  match id with
  | none => PREDEFINED_LOFI_STREAMS.find? (fun stream => stream.id == "local")
  | some i =>
      if i == "local" then
        PREDEFINED_LOFI_STREAMS.find? (fun stream => stream.id == "local")
      else
        PREDEFINED_LOFI_STREAMS.find? (fun stream => stream.id == i)

/-- Second copy of the registry (the repository carries two revisions of
the registry file whose entries differ only in display strings; the ids
and the resolver logic are identical). -/
def PREDEFINED_LOFI_STREAMS_v2 : List LofiStream :=
  [ { id := "local", name := "Local folder", url := "",
      description := some "Use MP3 files from the configured local folder" },
    { id := "chill-mornings", name := "Chill mornings",
      url := "https://antares.dribbcast.com/proxy/s8280/stream",
      description := some "A mellow mix for starting your day" },
    { id := "jazzy-afternoons", name := "Jazzy afternoons",
      url := "https://relay0.r-a-d.io/main.mp3",
      description := some "Smooth jazz vibes for a productive afternoon" },
    { id := "japanese-music", name := "Anime and Japanese music",
      url := "http://tsuiokuyo.ddns.net:8764/lossy",
      description := some "Broadcasting anime and Japanese music" },
    { id := "lofi-hiphop-radio", name := "Lofi hip hop radio",
      url := "https://streams.fluxfm.de/Chillhop/mp3-128/streams.fluxfm.de/",
      description := some "24/7 lofi hip hop beats" } ]

/-- Resolver of the second registry revision (identical code, second
stream table). -/
def getStreamById_v2 (id : Option String) : Option LofiStream :=
  match id with
  | none => PREDEFINED_LOFI_STREAMS_v2.find? (fun stream => stream.id == "local")
  | some i =>
      if i == "local" then
        PREDEFINED_LOFI_STREAMS_v2.find? (fun stream => stream.id == "local")
      else
        PREDEFINED_LOFI_STREAMS_v2.find? (fun stream => stream.id == i)

/-- Plugin settings, from the LofiPluginSettings interface in
src/types.ts (the revision imported by the main plugin file). -/
structure LofiPluginSettings where
  mySetting : String
  volume : Int
  audioFolderPath : String
  workDuration : Int
  restDuration : Int
  animationEnabled : Bool
deriving Repr, DecidableEq

/-- Default settings, from DEFAULT_LOFI_SETTINGS in src/defaults.ts. -/
def DEFAULT_LOFI_SETTINGS : LofiPluginSettings :=
  { mySetting := "default"
    volume := 50
    audioFolderPath := ""
    workDuration := 25
    restDuration := 5
    animationEnabled := false }

/-- Timer state union type, from the TimerState type alias. -/
inductive TimerState
  | stopped
  | working
  | resting
  | paused
deriving Repr, DecidableEq

/-- Session type union, from the SessionType type alias. -/
inductive SessionType
  | work
  | rest
deriving Repr, DecidableEq

/-- String value of a SessionType, as the TypeScript union carries the
literal strings "work" and "rest". -/
def sessionTypeName : SessionType → String
  | .work => "work"
  | .rest => "rest"

/-- Model of the HTMLAudioElement held in audioPlayer: the fields the
plugin reads and writes (src and paused). -/
structure AudioPlayer where
  src : String
  paused : Bool
deriving Repr, DecidableEq

/-- State of the LofiPlugin class: its fields, plus the interval-handle
environment and the observable notice / status-bar output (see the
modelling conventions at the top of the file). -/
structure LofiPlugin where
  settings : LofiPluginSettings
  audioPlayer : Option AudioPlayer
  playlist : List String
  currentTrackIndex : Int
  timerState : TimerState
  remainingTime : Int
  timerIntervalId : Option Nat
  currentSessionType : SessionType
  controlsVisible : Bool
  timerControlsVisible : Bool
  liveIntervals : List Nat
  nextIntervalId : Nat
  notices : List String
  statusBar : String
deriving Repr, DecidableEq

/-- Modelled from the spec: the host path-to-resource mapping
app.vault.adapter.getResourcePath, an external collaborator treated as
an opaque injective mapping from vault paths to app URIs. -/
def getResourcePath (vaultPath : String) : String :=
  "app://" ++ vaultPath

/-- Display name of a track: path.split(sl).pop() with the
"Unknown Track" fallback for an empty last segment (JavaScript
String.split never yields an empty array, and the OR-fallback fires
exactly when the popped segment is the empty string). -/
def trackDisplayName (vaultPath : String) : String :=
  let last := (vaultPath.splitOn "/").getLastD ""
  if last = "" then "Unknown Track" else last

/-- JavaScript Array.prototype.indexOf on a string array: index of the
first occurrence, or -1 when absent. -/
def jsIndexOfAux (x : String) : List String → Int
  | [] => -1
  | y :: ys =>
      if y = x then 0
      else
        let r := jsIndexOfAux x ys
        if r = -1 then -1 else r + 1

/-- Index of the first occurrence of x in l, -1 when absent (the
receiver-first argument order of playlist.indexOf(track)). -/
def jsIndexOf (l : List String) (x : String) : Int :=
  jsIndexOfAux x l

/-- Helper modelling a new Notice(text) call. -/
def notify (s : LofiPlugin) (text : String) : LofiPlugin :=
  { s with notices := s.notices ++ [text] }

/-- Helper modelling updateStatusBar(text). -/
def setStatus (s : LofiPlugin) (text : String) : LofiPlugin :=
  { s with statusBar := text }

/-- Helper modelling the guarded audio-source assignment
if (this.audioPlayer) this.audioPlayer.src = uri. -/
def setPlayerSrc (s : LofiPlugin) (uri : String) : LofiPlugin :=
  match s.audioPlayer with
  | some p => { s with audioPlayer := some { p with src := uri } }
  | none => s

/-- Method playTrackByPath(trackVaultPath): guard on a missing player or
empty playlist, indexOf lookup with the NotFound notice, then the index
assignment, source load and play attempt (playOk selects the .then or
.catch continuation of the play() promise). -/
def playTrackByPath (playOk : Bool) (trackVaultPath : String)
    (s : LofiPlugin) : LofiPlugin :=
  if s.audioPlayer.isNone ∨ s.playlist.length = 0 then
    setStatus
      (notify s "Cannot play track: Audio player not ready or playlist is empty.")
      "Lofi: Play Error"
  else
    let index := jsIndexOf s.playlist trackVaultPath
    if index = -1 then
      setStatus (notify s "Error: Selected track not found in playlist.")
        "Lofi: Track Error"
    else
      let s1 := setPlayerSrc { s with currentTrackIndex := index }
        (getResourcePath trackVaultPath)
      if playOk then
        let name := trackDisplayName trackVaultPath
        let s2 := match s1.audioPlayer with
          | some p => { s1 with audioPlayer := some { p with paused := false } }
          | none => s1
        setStatus (notify s2 ("Playing: " ++ name)) ("Playing: " ++ name)
      else
        setStatus
          (notify s1 ("Failed to play \"" ++ trackDisplayName trackVaultPath
            ++ "\". Check console."))
          "Lofi: Playback Error"

/-- Method playNextTrack(): the less-than-two-tracks guard with its two
distinct notices, then index increment with wraparound and delegation to
playTrackByPath on the track at the new index. -/
def playNextTrack (playOk : Bool) (s : LofiPlugin) : LofiPlugin :=
  if s.audioPlayer.isNone ∨ s.playlist.length ≤ 1 then
    if s.playlist.length = 0 then
      setStatus (notify s "Cannot play next track: Playlist is empty.")
        "Lofi: Playlist Empty"
    else
      setStatus (notify s "Cannot play next track: Only one track in playlist.")
        "Lofi: Single Track"
  else
    let idx0 := s.currentTrackIndex + 1
    let idx := if (s.playlist.length : Int) ≤ idx0 then 0 else idx0
    let nextTrackVaultPath := s.playlist.getD idx.toNat ""
    playTrackByPath playOk nextTrackVaultPath { s with currentTrackIndex := idx }

/-- Method playPreviousTrack(): symmetric guard and notices, index
decrement with wraparound to the last index, delegation to
playTrackByPath. -/
def playPreviousTrack (playOk : Bool) (s : LofiPlugin) : LofiPlugin :=
  if s.audioPlayer.isNone ∨ s.playlist.length ≤ 1 then
    if s.playlist.length = 0 then
      setStatus (notify s "Cannot play previous track: Playlist is empty.")
        "Lofi: Playlist Empty"
    else
      setStatus
        (notify s "Cannot play previous track: Only one track in playlist.")
        "Lofi: Single Track"
  else
    let idx0 := s.currentTrackIndex - 1
    let idx := if idx0 < 0 then (s.playlist.length : Int) - 1 else idx0
    let previousTrackVaultPath := s.playlist.getD idx.toNat ""
    playTrackByPath playOk previousTrackVaultPath
      { s with currentTrackIndex := idx }

/-- Child of the scanned vault folder: a file with its path and
extension, or a sub-folder (skipped by the instanceof TFile check). -/
inductive VaultChild
  | tfile (path : String) (extension : String)
  | tfolder
deriving Repr, DecidableEq

/-- Result of app.vault.getAbstractFileByPath on the scanned path: a
folder with its children, something that is not a TFolder (including
null), or a thrown vault error (the catch branch). -/
inductive FolderLookup
  | folder (children : List VaultChild)
  | notFolder
  | vaultError
deriving Repr, DecidableEq

/-- Lowercasing of an extension string, character by character
(String.prototype.toLowerCase; equal to String.toLower, written through
the character list so it evaluates by kernel reduction). -/
def lowerAscii (str : String) : String :=
  String.mk (str.data.map Char.toLower)

/-- MP3 paths among the children, from the scan loop: instanceof TFile
and extension.toLowerCase() equal to mp3. -/
def mp3Paths (children : List VaultChild) : List String :=
  children.filterMap fun c =>
    match c with
    | .tfile path extension =>
        if lowerAscii extension = "mp3" then some path else none
    | .tfolder => none

/-- Method scanAudioFolder(folderPath): clears the playlist, rejects an
empty or root normalized path, then fills the playlist from the folder
children, choosing index 0 when tracks were found and -1 otherwise.
Path normalization is the out-of-scope host collaborator; the embedding
receives the already-normalized path (normalizePath is idempotent, and
every caller passes a normalized path). The lookup argument is the
vault answer for that path. -/
def scanAudioFolder (lookup : FolderLookup) (normalizedFolderPath : String)
    (s0 : LofiPlugin) : LofiPlugin :=
  let s := { s0 with playlist := [] }
  if normalizedFolderPath = "" ∨ normalizedFolderPath = "/" then
    { setStatus (setPlayerSrc s "") "Lofi: No folder set" with
        currentTrackIndex := -1, controlsVisible := false }
  else
    match lookup with
    | .folder children =>
        let pl := mp3Paths children
        let s1 := setStatus { s with playlist := pl }
          ("Lofi: " ++ toString pl.length ++ " files found")
        if 0 < pl.length then
          let s2 := { s1 with currentTrackIndex := 0 }
          let s3 :=
            match s2.audioPlayer with
            | some p =>
                if p.paused then
                  let firstTrackVaultPath := pl.getD 0 ""
                  setStatus
                    (setPlayerSrc s2 (getResourcePath firstTrackVaultPath))
                    ("Lofi Ready || " ++ trackDisplayName firstTrackVaultPath)
                else s2
            | none => s2
          { s3 with controlsVisible := true }
        else
          { setStatus (setPlayerSrc s1 "") "Lofi: No files found" with
              currentTrackIndex := -1, controlsVisible := false }
    | .notFolder =>
        { setStatus
            (setPlayerSrc
              (notify s ("Error: \"" ++ normalizedFolderPath
                ++ "\" is not a valid folder.")) "")
            "Lofi: Invalid folder" with
            currentTrackIndex := -1, controlsVisible := false }
    | .vaultError =>
        { setStatus
            (setPlayerSrc
              (notify s ("Error scanning folder \"" ++ normalizedFolderPath
                ++ "\". Check console for details.")) "")
            "Lofi: Scan Error" with
            currentTrackIndex := -1, controlsVisible := false }

/-- Helper modelling clearInterval(this.timerIntervalId) when the stored
handle is non-null, without nulling the stored field (startTimer
overwrites it right away). -/
def clearStoredInterval (s : LofiPlugin) : LofiPlugin :=
  match s.timerIntervalId with
  | some i => { s with liveIntervals := s.liveIntervals.erase i }
  | none => s

/-- Helper modelling clearInterval followed by this.timerIntervalId =
null (the pauseTimer / resetTimer / endSession pattern). -/
def clearAndNullInterval (s : LofiPlugin) : LofiPlugin :=
  match s.timerIntervalId with
  | some i =>
      { s with liveIntervals := s.liveIntervals.erase i,
               timerIntervalId := none }
  | none => s

/-- Helper modelling window.setInterval(tick, 1000): registers a fresh
handle and stores it in timerIntervalId. -/
def registerInterval (s : LofiPlugin) : LofiPlugin :=
  { s with timerIntervalId := some s.nextIntervalId,
           liveIntervals := s.liveIntervals ++ [s.nextIntervalId],
           nextIntervalId := s.nextIntervalId + 1 }

/-- Capitalisation str.charAt(0).toUpperCase() + str.slice(1) used in the
session notices. -/
def capitalizeFirst (str : String) : String :=
  match str.data with
  | [] => ""
  | c :: rest => String.mk (c.toUpper :: rest)

/-- Notice text emitted by endSession. -/
def sessionEndedMessage (t : SessionType) : String :=
  capitalizeFirst (sessionTypeName t) ++ " session ended!"

/-- Method startTimer(): no-op while running; from stopped it applies the
work-duration fallback, forces the session type to work and loads the
work countdown; from paused it only reports the resume; then it derives
the running state from the session type, defensively clears any stored
interval handle and registers a fresh one (updateTimerDisplay and
updateTimerControls are presentation-only; setTimerControlsVisibility
(true) is kept as the timerControlsVisible flag). -/
def startTimer (s : LofiPlugin) : LofiPlugin :=
  if s.timerState = .working ∨ s.timerState = .resting then s
  else
    let s1 :=
      if s.timerState = .stopped then
        let workDur :=
          if s.settings.workDuration > 0 then s.settings.workDuration
          else DEFAULT_LOFI_SETTINGS.workDuration
        notify
          { s with currentSessionType := .work,
                   remainingTime := workDur * 60 }
          ("Starting work session (" ++ toString workDur ++ " minutes)!")
      else
        notify s
          ("Resuming " ++ sessionTypeName s.currentSessionType ++ " session!")
    let s2 :=
      { s1 with timerState :=
          if s1.currentSessionType = .work then .working else .resting }
    { registerInterval (clearStoredInterval s2) with
        timerControlsVisible := true }

/-- Method pauseTimer(): no-op unless running; otherwise cancels the
interval, freezes remainingTime and moves to paused. -/
def pauseTimer (s : LofiPlugin) : LofiPlugin :=
  if s.timerState ≠ .working ∧ s.timerState ≠ .resting then s
  else
    let s1 := clearAndNullInterval s
    notify { s1 with timerState := .paused } "Timer paused."

/-- Method resetTimer(): no-op when already fully reset; otherwise
cancels the interval and restores the canonical stopped state. -/
def resetTimer (s : LofiPlugin) : LofiPlugin :=
  if s.timerState = .stopped ∧ s.remainingTime = 0 then s
  else
    let s1 := clearAndNullInterval s
    notify
      { s1 with timerState := .stopped, remainingTime := 0,
                currentSessionType := .work }
      "Timer reset."

/-- Method endSession(): cancels the interval, emits the notice naming
the session type that ended, flips the session type, drops back to
stopped and immediately calls startTimer again. -/
def endSession (s : LofiPlugin) : LofiPlugin :=
  let s1 := notify (clearAndNullInterval s)
    (sessionEndedMessage s.currentSessionType)
  if s1.currentSessionType = .work then
    startTimer { s1 with currentSessionType := .rest, timerState := .stopped }
  else
    startTimer { s1 with currentSessionType := .work, timerState := .stopped }

/-- Method tick(): only acts while working or resting; decrements the
countdown, and on reaching (or passing) zero clamps to zero and invokes
endSession. -/
def tick (s : LofiPlugin) : LofiPlugin :=
  if s.timerState = .working ∨ s.timerState = .resting then
    let s1 := { s with remainingTime := s.remainingTime - 1 }
    if s1.remainingTime ≤ 0 then endSession { s1 with remainingTime := 0 }
    else s1
  else s

/-- Timer events a user or the interval callback can deliver. -/
inductive TimerEvent
  | start
  | pause
  | reset
  | tick
deriving Repr, DecidableEq

/-- Dispatch of a timer event to the corresponding method. -/
def timerStep : TimerEvent → LofiPlugin → LofiPlugin
  | .start, s => startTimer s
  | .pause, s => pauseTimer s
  | .reset, s => resetTimer s
  | .tick, s => tick s

/-- Left-to-right run of a sequence of timer events. -/
def runTimerEvents (evs : List TimerEvent) (s : LofiPlugin) : LofiPlugin :=
  evs.foldl (fun st e => timerStep e st) s

/-- Plugin state right after onload, from the class field initializers
(playlist empty, index -1, timer stopped at zero with no interval, work
session type) with a fresh paused audio element. -/
def initialPlugin (settings : LofiPluginSettings) : LofiPlugin :=
  { settings := settings
    audioPlayer := some { src := "", paused := true }
    playlist := []
    currentTrackIndex := -1
    timerState := .stopped
    remainingTime := 0
    timerIntervalId := none
    currentSessionType := .work
    controlsVisible := true
    timerControlsVisible := true
    liveIntervals := []
    nextIntervalId := 0
    notices := []
    statusBar := "Lofi Ready" }

/-! Helper lemmas about the list-index arithmetic and the interval
helpers, shared by the claim theorems below. -/

theorem jsIndexOfAux_of_not_mem (x : String) (l : List String) (h : x ∉ l) :
    jsIndexOfAux x l = -1 := by
  induction l with
  | nil => rfl
  | cons y ys ih =>
      have hxy : y ≠ x := fun hc => h (hc ▸ List.mem_cons_self y ys)
      have hxys : x ∉ ys := fun hc => h (List.mem_cons_of_mem y hc)
      simp [jsIndexOfAux, hxy, ih hxys]

theorem jsIndexOfAux_of_mem (x : String) (l : List String) (h : x ∈ l) :
    0 ≤ jsIndexOfAux x l ∧ jsIndexOfAux x l < (l.length : Int) := by
  induction l with
  | nil => cases h
  | cons y ys ih =>
      by_cases hxy : y = x
      · simp [jsIndexOfAux, hxy]
      · have hxys : x ∈ ys := by
          cases List.mem_cons.mp h with
          | inl hh => exact absurd hh.symm hxy
          | inr hh => exact hh
        obtain ⟨h0, hlt⟩ := ih hxys
        have hne : jsIndexOfAux x ys ≠ -1 := by omega
        simp only [jsIndexOfAux, if_neg hxy, if_neg hne, List.length_cons]
        constructor
        · omega
        · push_cast
          omega

theorem jsIndexOfAux_getD (l : List String) (hnd : l.Nodup) (i : Nat)
    (hi : i < l.length) :
    jsIndexOfAux (l.getD i "") l = (i : Int) := by
  induction l generalizing i with
  | nil => simp at hi
  | cons y ys ih =>
      obtain ⟨hy, hys⟩ := List.nodup_cons.mp hnd
      cases i with
      | zero => simp [jsIndexOfAux]
      | succ j =>
          have hj : j < ys.length := by simpa using hi
          have hmem : ys.getD j "" ∈ ys := by
            rw [List.getD_eq_getElem ys "" hj]
            exact List.getElem_mem hj
          have hne : y ≠ ys.getD j "" := fun hc => hy (hc ▸ hmem)
          have hrec := ih hys j hj
          have hge : (0 : Int) ≤ jsIndexOfAux (ys.getD j "") ys :=
            (jsIndexOfAux_of_mem _ _ hmem).1
          simp only [List.getD_cons_succ, jsIndexOfAux, if_neg hne]
          rw [hrec]
          have : ((j : Int)) ≠ -1 := by omega
          simp only [if_neg this]
          push_cast
          ring

theorem jsIndexOf_of_not_mem (l : List String) (x : String) (h : x ∉ l) :
    jsIndexOf l x = -1 :=
  jsIndexOfAux_of_not_mem x l h

theorem jsIndexOf_of_mem (l : List String) (x : String) (h : x ∈ l) :
    0 ≤ jsIndexOf l x ∧ jsIndexOf l x < (l.length : Int) :=
  jsIndexOfAux_of_mem x l h

theorem jsIndexOf_getD (l : List String) (hnd : l.Nodup) (i : Nat)
    (hi : i < l.length) :
    jsIndexOf l (l.getD i "") = (i : Int) :=
  jsIndexOfAux_getD l hnd i hi

/-- List of host-side interval handles a stored id accounts for. -/
def intervalList : Option Nat → List Nat
  | some i => [i]
  | none => []

/-- Statement that the host-side live interval handles are exactly the
one the plugin has stored (no leaked or duplicate intervals). -/
def handlesMatch (s : LofiPlugin) : Prop :=
  s.liveIntervals = intervalList s.timerIntervalId

theorem handlesMatch_clearStored (s : LofiPlugin) (h : handlesMatch s) :
    (clearStoredInterval s).liveIntervals = [] ∧
    (clearStoredInterval s).timerIntervalId = s.timerIntervalId := by
  unfold handlesMatch at h
  unfold clearStoredInterval
  cases hi : s.timerIntervalId <;> simp [hi, intervalList] at h ⊢ <;> simp [h]

theorem handlesMatch_clearAndNull (s : LofiPlugin) (h : handlesMatch s) :
    (clearAndNullInterval s).liveIntervals = [] ∧
    (clearAndNullInterval s).timerIntervalId = none := by
  unfold handlesMatch at h
  unfold clearAndNullInterval
  cases hi : s.timerIntervalId <;> simp [hi, intervalList] at h ⊢ <;> simp [h]

theorem handlesMatch_startTimer (s : LofiPlugin) (h : handlesMatch s) :
    handlesMatch (startTimer s) := by
  cases hts : s.timerState <;> cases hi : s.timerIntervalId <;>
    simp only [handlesMatch, intervalList, hi] at h <;>
    simp [handlesMatch, startTimer, notify, clearStoredInterval,
      registerInterval, hts, hi, h, intervalList]

theorem handlesMatch_pauseTimer (s : LofiPlugin) (h : handlesMatch s) :
    handlesMatch (pauseTimer s) := by
  cases hts : s.timerState <;> cases hi : s.timerIntervalId <;>
    simp only [handlesMatch, intervalList, hi] at h <;>
    simp [handlesMatch, pauseTimer, notify, clearAndNullInterval, hts, hi, h,
      intervalList]

theorem handlesMatch_resetTimer (s : LofiPlugin) (h : handlesMatch s) :
    handlesMatch (resetTimer s) := by
  by_cases hreset : s.timerState = TimerState.stopped ∧ s.remainingTime = 0
  · simpa [resetTimer, hreset] using h
  · cases hi : s.timerIntervalId <;>
      simp only [handlesMatch, intervalList, hi] at h <;>
      simp [handlesMatch, resetTimer, notify, clearAndNullInterval, hreset, hi,
        h, intervalList]

theorem handlesMatch_endSession (s : LofiPlugin) (h : handlesMatch s) :
    handlesMatch (endSession s) := by
  have hclear := handlesMatch_clearAndNull s h
  unfold endSession
  dsimp only
  split <;>
    apply handlesMatch_startTimer <;>
    simp [handlesMatch, notify, intervalList, hclear.1, hclear.2]

theorem handlesMatch_tick (s : LofiPlugin) (h : handlesMatch s) :
    handlesMatch (tick s) := by
  unfold tick
  split
  · dsimp only
    split
    · apply handlesMatch_endSession
      simpa [handlesMatch, intervalList] using h
    · simpa [handlesMatch, intervalList] using h
  · exact h

theorem handlesMatch_timerStep (e : TimerEvent) (s : LofiPlugin)
    (h : handlesMatch s) : handlesMatch (timerStep e s) := by
  cases e with
  | start => exact handlesMatch_startTimer s h
  | pause => exact handlesMatch_pauseTimer s h
  | reset => exact handlesMatch_resetTimer s h
  | tick => exact handlesMatch_tick s h

theorem handlesMatch_runTimerEvents (evs : List TimerEvent) (s : LofiPlugin)
    (h : handlesMatch s) : handlesMatch (runTimerEvents evs s) := by
  induction evs generalizing s with
  | nil => exact h
  | cons e rest ih =>
      exact ih (timerStep e s) (handlesMatch_timerStep e s h)

theorem startTimer_stopped_remainingTime (s : LofiPlugin)
    (h : s.timerState = TimerState.stopped) :
    (startTimer s).remainingTime =
      (if s.settings.workDuration > 0 then s.settings.workDuration else 25) * 60 := by
  cases hi : s.timerIntervalId <;>
    simp [startTimer, h, hi, notify, clearStoredInterval, registerInterval,
      DEFAULT_LOFI_SETTINGS]

theorem endSession_remainingTime (s : LofiPlugin) :
    (endSession s).remainingTime =
      (if s.settings.workDuration > 0 then s.settings.workDuration else 25) * 60 := by
  unfold endSession
  dsimp only
  cases hi : s.timerIntervalId <;>
    split <;>
    rw [startTimer_stopped_remainingTime _ rfl] <;>
    simp [notify, clearAndNullInterval, hi]

/-- Running timer phase that belongs to a session type (working for work,
resting for rest). -/
def runningPhaseFor : SessionType → TimerState
  | .work => .working
  | .rest => .resting

/-! Claim theorems. -/

/-- C2 counterexample: resolving an id absent from the registry does NOT
behave identically to resolving null. getStreamById applied to the
unknown id "nonexistent-id" returns undefined (none), while applied to
null it returns the reserved local descriptor, in both registry
revisions. -/
theorem getStreamById_unknown_ne_null :
    getStreamById (some "nonexistent-id") ≠ getStreamById none ∧
    getStreamById_v2 (some "nonexistent-id") ≠ getStreamById_v2 none := by
  constructor <;> decide

/-- C2 amended: resolving an id absent from the registry never throws
but yields no descriptor (undefined), whereas resolving null (or the
literal id "local") yields the reserved local descriptor; so the
treat-unknown-as-local fallback is not implemented inside getStreamById,
in either registry revision. -/
theorem getStreamById_unknown_eq_none (i : String)
    (h : i ∉ PREDEFINED_LOFI_STREAMS.map LofiStream.id)
    (h2 : i ∉ PREDEFINED_LOFI_STREAMS_v2.map LofiStream.id) :
    getStreamById (some i) = none ∧
    getStreamById_v2 (some i) = none ∧
    getStreamById none = PREDEFINED_LOFI_STREAMS.find? (fun st => st.id == "local") ∧
    (getStreamById none).isSome = true ∧
    getStreamById (some "local") = getStreamById none ∧
    getStreamById_v2 none =
      PREDEFINED_LOFI_STREAMS_v2.find? (fun st => st.id == "local") ∧
    (getStreamById_v2 none).isSome = true ∧
    getStreamById_v2 (some "local") = getStreamById_v2 none := by
  have hloc : (i == "local") = false := by
    rw [beq_eq_false_iff_ne]
    intro hcon
    subst hcon
    exact h (by simp [PREDEFINED_LOFI_STREAMS])
  have hfind : PREDEFINED_LOFI_STREAMS.find? (fun st => st.id == i) = none := by
    rw [List.find?_eq_none]
    intro st hst
    simp only [beq_iff_eq]
    intro hid
    exact h (hid ▸ List.mem_map_of_mem LofiStream.id hst)
  have hfind2 : PREDEFINED_LOFI_STREAMS_v2.find? (fun st => st.id == i) = none := by
    rw [List.find?_eq_none]
    intro st hst
    simp only [beq_iff_eq]
    intro hid
    exact h2 (hid ▸ List.mem_map_of_mem LofiStream.id hst)
  refine ⟨?_, ?_, rfl, by decide, by decide, rfl, by decide, by decide⟩
  · simp [getStreamById, hloc, hfind]
  · simp [getStreamById_v2, hloc, hfind2]

/-- C2 witness: the amended theorem applied at the concrete unknown id
"nonexistent-id". -/
theorem getStreamById_unknown_eq_none_witness :
    getStreamById (some "nonexistent-id") = none ∧
    getStreamById_v2 (some "nonexistent-id") = none ∧
    getStreamById none = PREDEFINED_LOFI_STREAMS.find? (fun st => st.id == "local") ∧
    (getStreamById none).isSome = true ∧
    getStreamById (some "local") = getStreamById none ∧
    getStreamById_v2 none =
      PREDEFINED_LOFI_STREAMS_v2.find? (fun st => st.id == "local") ∧
    (getStreamById_v2 none).isSome = true ∧
    getStreamById_v2 (some "local") = getStreamById_v2 none :=
  getStreamById_unknown_eq_none "nonexistent-id" (by decide) (by decide)

/-- State of the timer at the last second of a work session: working
phase, work session type, one second remaining, one live interval
handle, default settings (workDuration 25, restDuration 5). -/
def workSessionEnding : LofiPlugin :=
  { settings := DEFAULT_LOFI_SETTINGS
    audioPlayer := some { src := "", paused := true }
    playlist := []
    currentTrackIndex := -1
    timerState := .working
    remainingTime := 1
    timerIntervalId := some 0
    currentSessionType := .work
    controlsVisible := false
    timerControlsVisible := true
    liveIntervals := [0]
    nextIntervalId := 1
    notices := []
    statusBar := "" }

/-- C1: evaluation of the code at the failing input. When the countdown
of a Working session reaches zero, the notice naming the ended session
type is emitted, but the auto-chained session is NOT a Resting session
of restDuration*60 seconds: startTimer, called from the stopped state by
endSession, forces the session type back to work, so the plugin starts
another Working session of workDuration*60 seconds (restDuration*60 =
300 is never loaded and the resting phase is never entered). -/
theorem tick_at_work_end_restarts_work_session :
    (tick workSessionEnding).notices =
      ["Work session ended!", "Starting work session (25 minutes)!"] ∧
    (tick workSessionEnding).currentSessionType = SessionType.work ∧
    (tick workSessionEnding).timerState = TimerState.working ∧
    (tick workSessionEnding).remainingTime = 25 * 60 ∧
    (tick workSessionEnding).remainingTime ≠
      DEFAULT_LOFI_SETTINGS.restDuration * 60 ∧
    (tick workSessionEnding).timerState ≠ TimerState.resting := by
  refine ⟨rfl, rfl, rfl, by decide, by decide, by decide⟩

/-- State of the timer at the last second of a work session under
settings whose restDuration is invalid (0) and whose workDuration is the
default 25. -/
def workSessionEndingBadRest : LofiPlugin :=
  { workSessionEnding with
      settings := { DEFAULT_LOFI_SETTINGS with restDuration := 0 } }

/-- C3: the work-duration fallback holds (starting from stopped with a
non-positive workDuration loads 25*60 seconds), but the rest half of the
claim fails at the failing input: an ended work session never starts a
rest countdown at all — with an invalid restDuration the code starts
another work countdown of 25*60 seconds, not a rest countdown of 5*60,
because startTimer only ever reads workDuration. -/
theorem duration_fallback_and_missing_rest_session :
    (startTimer (initialPlugin
        { DEFAULT_LOFI_SETTINGS with workDuration := 0 })).remainingTime
      = 25 * 60 ∧
    (startTimer (initialPlugin
        { DEFAULT_LOFI_SETTINGS with workDuration := -7 })).remainingTime
      = 25 * 60 ∧
    (startTimer (initialPlugin
        { DEFAULT_LOFI_SETTINGS with workDuration := 0 })).timerState
      = TimerState.working ∧
    (tick workSessionEndingBadRest).remainingTime = 25 * 60 ∧
    (tick workSessionEndingBadRest).remainingTime ≠ 5 * 60 ∧
    (tick workSessionEndingBadRest).timerState = TimerState.working := by
  refine ⟨by decide, by decide, rfl, by decide, by decide, rfl⟩

/-- C6: pause/resume preserves the countdown exactly. For every running
timer (working or resting, with the phase that belongs to its session
type), pauseTimer freezes remainingTime, moves to paused and keeps
currentSessionType as the record of the paused-from phase; a following
startTimer resumes in exactly the original phase with exactly the frozen
remainingTime, with no reset to the configured duration. -/
theorem pause_resume_fidelity (s : LofiPlugin)
    (h : s.timerState = runningPhaseFor s.currentSessionType) :
    (pauseTimer s).remainingTime = s.remainingTime ∧
    (pauseTimer s).timerState = TimerState.paused ∧
    (pauseTimer s).currentSessionType = s.currentSessionType ∧
    (startTimer (pauseTimer s)).remainingTime = s.remainingTime ∧
    (startTimer (pauseTimer s)).timerState = s.timerState ∧
    (startTimer (pauseTimer s)).currentSessionType = s.currentSessionType := by
  cases hc : s.currentSessionType <;>
    rw [hc] at h <;>
    simp only [runningPhaseFor] at h <;>
    cases hi : s.timerIntervalId <;>
    simp [pauseTimer, startTimer, notify, clearAndNullInterval,
      clearStoredInterval, registerInterval, h, hc, hi]

/-- C6 witness: a working session with 67 seconds left resumes from
exactly 67 seconds in the working phase after pause and start. -/
theorem pause_resume_fidelity_witness :
    (pauseTimer { workSessionEnding with remainingTime := 67 }).remainingTime
        = 67 ∧
    (pauseTimer { workSessionEnding with
        remainingTime := 67 }).timerState = TimerState.paused ∧
    (pauseTimer { workSessionEnding with
        remainingTime := 67 }).currentSessionType = SessionType.work ∧
    (startTimer (pauseTimer { workSessionEnding with
        remainingTime := 67 })).remainingTime = 67 ∧
    (startTimer (pauseTimer { workSessionEnding with
        remainingTime := 67 })).timerState = TimerState.working ∧
    (startTimer (pauseTimer { workSessionEnding with
        remainingTime := 67 })).currentSessionType = SessionType.work :=
  pause_resume_fidelity { workSessionEnding with remainingTime := 67 } rfl

/-- C9: at most one countdown interval handle is ever active. Running
any sequence of start / pause / reset / tick events from the
freshly-loaded plugin state (including the automatic endSession restart
inside tick) leaves at most one live interval handle registered with the
host. -/
theorem at_most_one_timer_handle (evs : List TimerEvent)
    (st : LofiPluginSettings) :
    (runTimerEvents evs (initialPlugin st)).liveIntervals.length ≤ 1 := by
  have h := handlesMatch_runTimerEvents evs (initialPlugin st) rfl
  rw [handlesMatch] at h
  rw [h]
  cases (runTimerEvents evs (initialPlugin st)).timerIntervalId <;>
    simp [intervalList]

/-- C10: a tick delivered while the timer is stopped or paused is a
complete no-op on the plugin state, and a tick delivered while working
or resting never leaves a negative remainingSeconds (the countdown is
clamped to zero before end-of-session handling, which then loads a
positive fresh countdown). -/
theorem tick_noop_when_not_running_and_clamped (s : LofiPlugin) :
    ((s.timerState = TimerState.stopped ∨ s.timerState = TimerState.paused) →
      tick s = s) ∧
    ((s.timerState = TimerState.working ∨ s.timerState = TimerState.resting) →
      0 ≤ (tick s).remainingTime) := by
  constructor
  · intro h
    rcases h with h | h <;> simp [tick, h]
  · intro h
    unfold tick
    rw [if_pos h]
    dsimp only
    split
    · rw [endSession_remainingTime]
      dsimp only
      split <;> omega
    · dsimp only at *
      omega

/-- C10 witness: a tick in the stopped initial state changes nothing,
and a tick at the final second of a working session leaves a
non-negative countdown. -/
theorem tick_noop_when_not_running_and_clamped_witness :
    tick (initialPlugin DEFAULT_LOFI_SETTINGS) =
      initialPlugin DEFAULT_LOFI_SETTINGS ∧
    0 ≤ (tick workSessionEnding).remainingTime :=
  ⟨(tick_noop_when_not_running_and_clamped
      (initialPlugin DEFAULT_LOFI_SETTINGS)).1 (Or.inl rfl),
   (tick_noop_when_not_running_and_clamped workSessionEnding).2 (Or.inl rfl)⟩

/-! Helper lemmas about playTrackByPath, shared by the playback claim
theorems. -/

theorem playTrackByPath_not_found (s : LofiPlugin) (ok : Bool) (p : String)
    (h : p ∉ s.playlist) :
    (playTrackByPath ok p s).currentTrackIndex = s.currentTrackIndex ∧
    (playTrackByPath ok p s).playlist = s.playlist ∧
    (playTrackByPath ok p s).audioPlayer = s.audioPlayer ∧
    (playTrackByPath ok p s).notices.length = s.notices.length + 1 := by
  have hidx : jsIndexOf s.playlist p = -1 := jsIndexOf_of_not_mem s.playlist p h
  unfold playTrackByPath
  split
  · simp [notify, setStatus]
  · dsimp only
    simp [hidx, notify, setStatus]

theorem playTrackByPath_found (s : LofiPlugin) (ok : Bool) (p : String)
    (hap : s.audioPlayer.isSome = true) (hmem : p ∈ s.playlist) :
    (playTrackByPath ok p s).currentTrackIndex = jsIndexOf s.playlist p ∧
    (playTrackByPath ok p s).playlist = s.playlist ∧
    (playTrackByPath ok p s).notices.length = s.notices.length + 1 ∧
    (ok = false →
      (playTrackByPath ok p s).statusBar = "Lofi: Playback Error") := by
  obtain ⟨pl, hao⟩ := Option.isSome_iff_exists.mp hap
  have hlen : s.playlist.length ≠ 0 := by
    have := List.length_pos_of_mem hmem
    omega
  obtain ⟨hge, hlt⟩ := jsIndexOf_of_mem s.playlist p hmem
  have hne : ¬ jsIndexOf s.playlist p = -1 := by omega
  cases ok <;>
    simp [playTrackByPath, hao, hlen, hne, notify, setStatus, setPlayerSrc]

/-- C5: with zero or one track, playNextTrack and playPreviousTrack are
benign no-ops: currentTrackIndex, the playlist and the loaded audio
element are unchanged, and a single notice plus status-bar message is
reported, with distinct texts for the empty-playlist and single-track
cases; no exception path exists. -/
theorem next_previous_small_playlist_guard (s : LofiPlugin) (ok : Bool)
    (h : s.playlist.length ≤ 1) :
    (playNextTrack ok s).currentTrackIndex = s.currentTrackIndex ∧
    (playNextTrack ok s).playlist = s.playlist ∧
    (playNextTrack ok s).audioPlayer = s.audioPlayer ∧
    (playNextTrack ok s).notices = s.notices ++
      [if s.playlist.length = 0 then "Cannot play next track: Playlist is empty."
       else "Cannot play next track: Only one track in playlist."] ∧
    (playNextTrack ok s).statusBar =
      (if s.playlist.length = 0 then "Lofi: Playlist Empty"
       else "Lofi: Single Track") ∧
    (playPreviousTrack ok s).currentTrackIndex = s.currentTrackIndex ∧
    (playPreviousTrack ok s).playlist = s.playlist ∧
    (playPreviousTrack ok s).audioPlayer = s.audioPlayer ∧
    (playPreviousTrack ok s).notices = s.notices ++
      [if s.playlist.length = 0 then "Cannot play previous track: Playlist is empty."
       else "Cannot play previous track: Only one track in playlist."] ∧
    (playPreviousTrack ok s).statusBar =
      (if s.playlist.length = 0 then "Lofi: Playlist Empty"
       else "Lofi: Single Track") := by
  by_cases h0 : s.playlist.length = 0 <;>
    simp [playNextTrack, playPreviousTrack, notify, setStatus, h, h0]

/-- C5 witness: the guard applied to the freshly-loaded empty playlist
and to a one-track playlist. -/
theorem next_previous_small_playlist_guard_witness :
    (playNextTrack true (initialPlugin DEFAULT_LOFI_SETTINGS)).currentTrackIndex
        = (initialPlugin DEFAULT_LOFI_SETTINGS).currentTrackIndex ∧
    (playPreviousTrack false { initialPlugin DEFAULT_LOFI_SETTINGS with
        playlist := ["lofi/only.mp3"] }).currentTrackIndex
      = ({ initialPlugin DEFAULT_LOFI_SETTINGS with
          playlist := ["lofi/only.mp3"] } : LofiPlugin).currentTrackIndex :=
  ⟨(next_previous_small_playlist_guard
      (initialPlugin DEFAULT_LOFI_SETTINGS) true (by decide)).1,
   (next_previous_small_playlist_guard
      { initialPlugin DEFAULT_LOFI_SETTINGS with playlist := ["lofi/only.mp3"] }
      false (by decide)).2.2.2.2.2.1⟩

/-- C8: selecting a track by reference. When the track is not in the
current playlist the call is a reported, non-fatal no-op: the index, the
playlist and the audio element are unchanged and exactly one notice is
produced. When the track is present (and the player exists), the index
is set to the position of the track in the playlist, a valid position,
playback is attempted with one notice produced, and on a playback
failure the degraded status is reported while the index change still
stands. -/
theorem select_track_error_handling (s : LofiPlugin) (ok : Bool) (p : String) :
    (p ∉ s.playlist →
      (playTrackByPath ok p s).currentTrackIndex = s.currentTrackIndex ∧
      (playTrackByPath ok p s).playlist = s.playlist ∧
      (playTrackByPath ok p s).audioPlayer = s.audioPlayer ∧
      (playTrackByPath ok p s).notices.length = s.notices.length + 1) ∧
    (s.audioPlayer.isSome = true → p ∈ s.playlist →
      (playTrackByPath ok p s).currentTrackIndex = jsIndexOf s.playlist p ∧
      0 ≤ jsIndexOf s.playlist p ∧
      jsIndexOf s.playlist p < (s.playlist.length : Int) ∧
      (playTrackByPath ok p s).playlist = s.playlist ∧
      (playTrackByPath ok p s).notices.length = s.notices.length + 1 ∧
      (ok = false →
        (playTrackByPath ok p s).statusBar = "Lofi: Playback Error" ∧
        (playTrackByPath ok p s).currentTrackIndex = jsIndexOf s.playlist p)) := by
  constructor
  · intro h
    exact playTrackByPath_not_found s ok p h
  · intro hap hmem
    obtain ⟨h1, h2, h3, h4⟩ := playTrackByPath_found s ok p hap hmem
    obtain ⟨hge, hlt⟩ := jsIndexOf_of_mem s.playlist p hmem
    exact ⟨h1, hge, hlt, h2, h3, fun hko => ⟨h4 hko, h1⟩⟩

/-- State with a three-track playlist, used to witness the playback
claims on concrete inputs. -/
def threeTrackPlugin : LofiPlugin :=
  { initialPlugin DEFAULT_LOFI_SETTINGS with
      playlist := ["lofi/a.mp3", "lofi/b.mp3", "lofi/c.mp3"],
      currentTrackIndex := 2 }

/-- C8 witness: the theorem applied to the three-track state at a stale
reference and at a present track whose play attempt fails. -/
theorem select_track_error_handling_witness :
    (playTrackByPath true "lofi/stale.mp3" threeTrackPlugin).currentTrackIndex
        = threeTrackPlugin.currentTrackIndex ∧
    (playTrackByPath false "lofi/b.mp3" threeTrackPlugin).currentTrackIndex
        = jsIndexOf threeTrackPlugin.playlist "lofi/b.mp3" ∧
    (playTrackByPath false "lofi/b.mp3" threeTrackPlugin).statusBar
        = "Lofi: Playback Error" :=
  ⟨((select_track_error_handling threeTrackPlugin true "lofi/stale.mp3").1
      (by decide)).1,
   ((select_track_error_handling threeTrackPlugin false "lofi/b.mp3").2
      (by decide) (by decide)).1,
   (((select_track_error_handling threeTrackPlugin false "lofi/b.mp3").2
      (by decide) (by decide)).2.2.2.2.2 rfl).1⟩

theorem playNextTrack_big (s : LofiPlugin) (ok : Bool)
    (hap : s.audioPlayer.isSome = true)
    (hnd : s.playlist.Nodup)
    (hlen : 2 ≤ s.playlist.length)
    (_h0 : 0 ≤ s.currentTrackIndex)
    (hlt : s.currentTrackIndex < (s.playlist.length : Int)) :
    (playNextTrack ok s).currentTrackIndex =
      (if (s.playlist.length : Int) ≤ s.currentTrackIndex + 1 then 0
       else s.currentTrackIndex + 1) := by
  have hguard : ¬(s.audioPlayer.isNone = true ∨ s.playlist.length ≤ 1) := by
    simp only [Option.isNone_iff_eq_none]
    rintro (hc | hc)
    · rw [hc] at hap
      cases hap
    · omega
  unfold playNextTrack
  rw [if_neg hguard]
  dsimp only
  set idx := if (s.playlist.length : Int) ≤ s.currentTrackIndex + 1 then 0
    else s.currentTrackIndex + 1 with hidx
  have hbounds : 0 ≤ idx ∧ idx < (s.playlist.length : Int) := by
    rw [hidx]
    split <;> omega
  have htn : idx.toNat < s.playlist.length := by omega
  have hmem : s.playlist.getD idx.toNat "" ∈ s.playlist := by
    rw [List.getD_eq_getElem _ _ htn]
    exact List.getElem_mem htn
  have hfound := playTrackByPath_found { s with currentTrackIndex := idx } ok
    (s.playlist.getD idx.toNat "") hap hmem
  rw [hfound.1]
  rw [jsIndexOf_getD s.playlist hnd idx.toNat htn]
  omega

theorem playPreviousTrack_big (s : LofiPlugin) (ok : Bool)
    (hap : s.audioPlayer.isSome = true)
    (hnd : s.playlist.Nodup)
    (hlen : 2 ≤ s.playlist.length)
    (h0 : 0 ≤ s.currentTrackIndex)
    (hlt : s.currentTrackIndex < (s.playlist.length : Int)) :
    (playPreviousTrack ok s).currentTrackIndex =
      (if s.currentTrackIndex - 1 < 0 then (s.playlist.length : Int) - 1
       else s.currentTrackIndex - 1) := by
  have hguard : ¬(s.audioPlayer.isNone = true ∨ s.playlist.length ≤ 1) := by
    simp only [Option.isNone_iff_eq_none]
    rintro (hc | hc)
    · rw [hc] at hap
      cases hap
    · omega
  unfold playPreviousTrack
  rw [if_neg hguard]
  dsimp only
  set idx := if s.currentTrackIndex - 1 < 0 then (s.playlist.length : Int) - 1
    else s.currentTrackIndex - 1 with hidx
  have hbounds : 0 ≤ idx ∧ idx < (s.playlist.length : Int) := by
    rw [hidx]
    split <;> omega
  have htn : idx.toNat < s.playlist.length := by omega
  have hmem : s.playlist.getD idx.toNat "" ∈ s.playlist := by
    rw [List.getD_eq_getElem _ _ htn]
    exact List.getElem_mem htn
  have hfound := playTrackByPath_found { s with currentTrackIndex := idx } ok
    (s.playlist.getD idx.toNat "") hap hmem
  rw [hfound.1]
  rw [jsIndexOf_getD s.playlist hnd idx.toNat htn]
  omega

/-- C4: with at least two (pairwise distinct) tracks and a valid current
index, playNextTrack at the last index wraps currentTrackIndex to 0 and
otherwise advances it by exactly one; playPreviousTrack at index 0 wraps
to the last index and otherwise retreats by exactly one; and each call
is exactly a selectTrack (playTrackByPath) of the track at the new
index. -/
theorem next_previous_wraparound (s : LofiPlugin) (ok : Bool)
    (hap : s.audioPlayer.isSome = true)
    (hnd : s.playlist.Nodup)
    (hlen : 2 ≤ s.playlist.length)
    (h0 : 0 ≤ s.currentTrackIndex)
    (hlt : s.currentTrackIndex < (s.playlist.length : Int)) :
    (playNextTrack ok s).currentTrackIndex =
      (if s.currentTrackIndex = (s.playlist.length : Int) - 1 then 0
       else s.currentTrackIndex + 1) ∧
    (playPreviousTrack ok s).currentTrackIndex =
      (if s.currentTrackIndex = 0 then (s.playlist.length : Int) - 1
       else s.currentTrackIndex - 1) ∧
    playNextTrack ok s =
      playTrackByPath ok
        (s.playlist.getD
          (if (s.playlist.length : Int) ≤ s.currentTrackIndex + 1 then 0
           else s.currentTrackIndex + 1).toNat "")
        { s with currentTrackIndex :=
            if (s.playlist.length : Int) ≤ s.currentTrackIndex + 1 then 0
            else s.currentTrackIndex + 1 } ∧
    playPreviousTrack ok s =
      playTrackByPath ok
        (s.playlist.getD
          (if s.currentTrackIndex - 1 < 0 then (s.playlist.length : Int) - 1
           else s.currentTrackIndex - 1).toNat "")
        { s with currentTrackIndex :=
            if s.currentTrackIndex - 1 < 0 then (s.playlist.length : Int) - 1
            else s.currentTrackIndex - 1 } := by
  have hguard : ¬(s.audioPlayer.isNone = true ∨ s.playlist.length ≤ 1) := by
    simp only [Option.isNone_iff_eq_none]
    rintro (hc | hc)
    · rw [hc] at hap
      cases hap
    · omega
  refine ⟨?_, ?_, ?_, ?_⟩
  · rw [playNextTrack_big s ok hap hnd hlen h0 hlt]
    split_ifs <;> omega
  · rw [playPreviousTrack_big s ok hap hnd hlen h0 hlt]
    split_ifs <;> omega
  · unfold playNextTrack
    rw [if_neg hguard]
  · unfold playPreviousTrack
    rw [if_neg hguard]

/-- C4 witness: on the three-track playlist, playNextTrack at index 2
wraps to 0, playPreviousTrack at index 0 wraps to 2, and playNextTrack
at index 0 advances to 1. -/
theorem next_previous_wraparound_witness :
    (playNextTrack true threeTrackPlugin).currentTrackIndex = 0 ∧
    (playPreviousTrack true { threeTrackPlugin with
        currentTrackIndex := 0 }).currentTrackIndex = 2 ∧
    (playNextTrack true { threeTrackPlugin with
        currentTrackIndex := 0 }).currentTrackIndex = 1 := by
  refine ⟨?_, ?_, ?_⟩
  · rw [(next_previous_wraparound threeTrackPlugin true rfl (by decide)
      (by decide) (by decide) (by decide)).1]
    decide
  · rw [(next_previous_wraparound { threeTrackPlugin with currentTrackIndex := 0 }
      true rfl (by decide) (by decide) (by decide) (by decide)).2.1]
    decide
  · rw [(next_previous_wraparound { threeTrackPlugin with currentTrackIndex := 0 }
      true rfl (by decide) (by decide) (by decide) (by decide)).1]
    decide

/-- Invariant of the plugin playback state: currentTrackIndex is -1 or
a valid position in the playlist. -/
def indexInv (s : LofiPlugin) : Prop :=
  s.currentTrackIndex = -1 ∨
    (0 ≤ s.currentTrackIndex ∧
      s.currentTrackIndex < (s.playlist.length : Int))

theorem setPlayerSrc_currentTrackIndex (s : LofiPlugin) (u : String) :
    (setPlayerSrc s u).currentTrackIndex = s.currentTrackIndex := by
  unfold setPlayerSrc
  cases s.audioPlayer <;> rfl

theorem setPlayerSrc_playlist (s : LofiPlugin) (u : String) :
    (setPlayerSrc s u).playlist = s.playlist := by
  unfold setPlayerSrc
  cases s.audioPlayer <;> rfl

theorem indexInv_playTrackByPath (s : LofiPlugin) (ok : Bool) (p : String)
    (h : indexInv s) : indexInv (playTrackByPath ok p s) := by
  by_cases hmem : p ∈ s.playlist
  · by_cases hap : s.audioPlayer.isSome = true
    · obtain ⟨h1, h2, _, _⟩ := playTrackByPath_found s ok p hap hmem
      obtain ⟨hge, hlt⟩ := jsIndexOf_of_mem s.playlist p hmem
      unfold indexInv
      rw [h1, h2]
      exact Or.inr ⟨hge, hlt⟩
    · have hao : s.audioPlayer = none := by
        cases ha : s.audioPlayer
        · rfl
        · rw [ha] at hap
          simp at hap
      simpa [indexInv, playTrackByPath, hao, notify, setStatus] using h
  · obtain ⟨h1, h2, _, _⟩ := playTrackByPath_not_found s ok p hmem
    unfold indexInv at h ⊢
    rw [h1, h2]
    exact h

theorem indexInv_playNextTrack (s : LofiPlugin) (ok : Bool)
    (h : indexInv s) : indexInv (playNextTrack ok s) := by
  unfold playNextTrack
  split
  · split <;> simpa [indexInv, notify, setStatus] using h
  · rename_i hg
    dsimp only
    apply indexInv_playTrackByPath
    have hlen : 2 ≤ s.playlist.length := by
      rcases Nat.lt_or_ge 1 s.playlist.length with hc | hc
      · omega
      · exact absurd (Or.inr hc) hg
    unfold indexInv at h ⊢
    dsimp only
    right
    rcases h with h | h <;> constructor <;> split <;> omega

theorem indexInv_playPreviousTrack (s : LofiPlugin) (ok : Bool)
    (h : indexInv s) : indexInv (playPreviousTrack ok s) := by
  unfold playPreviousTrack
  split
  · split <;> simpa [indexInv, notify, setStatus] using h
  · rename_i hg
    dsimp only
    apply indexInv_playTrackByPath
    have hlen : 2 ≤ s.playlist.length := by
      rcases Nat.lt_or_ge 1 s.playlist.length with hc | hc
      · omega
      · exact absurd (Or.inr hc) hg
    unfold indexInv at h ⊢
    dsimp only
    right
    rcases h with h | h <;> constructor <;> split <;> omega

theorem scanAudioFolder_shape (lookup : FolderLookup) (path : String)
    (s : LofiPlugin) :
    ((scanAudioFolder lookup path s).currentTrackIndex = -1 ∧
      (scanAudioFolder lookup path s).playlist = []) ∨
    ((scanAudioFolder lookup path s).currentTrackIndex = 0 ∧
      (scanAudioFolder lookup path s).playlist ≠ []) := by
  unfold scanAudioFolder
  cases hao : s.audioPlayer <;>
    split <;>
    (try split) <;>
    dsimp only <;>
    (try split) <;>
    (try split) <;>
    (try split) <;>
    first
      | (exfalso
         simp_all [setStatus]
         done)
      | (rename_i hpl
         right
         constructor <;>
           simp [setStatus, setPlayerSrc, hao, ← List.length_pos] <;>
           omega)
      | (right
         constructor <;>
           simp [setStatus, setPlayerSrc, hao, ← List.length_pos] <;>
           omega)
      | (left
         constructor <;>
           simp [setStatus, notify, setPlayerSrc, hao] <;>
           (rw [← List.length_eq_zero]
            omega))

/-- C7: every playback operation preserves the invariant that
currentTrackIndex is -1 or a valid index below the playlist length;
scanAudioFolder establishes it outright from any prior state, leaving
index -1 exactly when the resulting playlist is empty (invalid folder,
empty folder, cleared path, vault error) and the valid index 0 whenever
it found at least one track. -/
theorem playback_index_invariant :
    (∀ (lookup : FolderLookup) (path : String) (s : LofiPlugin),
        indexInv (scanAudioFolder lookup path s)) ∧
    (∀ (s : LofiPlugin) (ok : Bool) (p : String),
        indexInv s → indexInv (playTrackByPath ok p s)) ∧
    (∀ (s : LofiPlugin) (ok : Bool),
        indexInv s → indexInv (playNextTrack ok s)) ∧
    (∀ (s : LofiPlugin) (ok : Bool),
        indexInv s → indexInv (playPreviousTrack ok s)) ∧
    (∀ (lookup : FolderLookup) (path : String) (s : LofiPlugin),
        (scanAudioFolder lookup path s).playlist = [] →
        (scanAudioFolder lookup path s).currentTrackIndex = -1) ∧
    (∀ (lookup : FolderLookup) (path : String) (s : LofiPlugin),
        (scanAudioFolder lookup path s).playlist ≠ [] →
        (scanAudioFolder lookup path s).currentTrackIndex = 0) := by
  refine ⟨?_, ?_, ?_, ?_, ?_, ?_⟩
  · intro lookup path s
    rcases scanAudioFolder_shape lookup path s with ⟨h1, _⟩ | ⟨h1, h2⟩
    · exact Or.inl h1
    · right
      rw [h1]
      have : 0 < (scanAudioFolder lookup path s).playlist.length :=
        List.length_pos.mpr h2
      constructor
      · omega
      · exact_mod_cast this
  · exact fun s ok p h => indexInv_playTrackByPath s ok p h
  · exact fun s ok h => indexInv_playNextTrack s ok h
  · exact fun s ok h => indexInv_playPreviousTrack s ok h
  · intro lookup path s hpl
    rcases scanAudioFolder_shape lookup path s with ⟨h1, _⟩ | ⟨_, h2⟩
    · exact h1
    · exact absurd hpl h2
  · intro lookup path s hpl
    rcases scanAudioFolder_shape lookup path s with ⟨_, h2⟩ | ⟨h1, _⟩
    · exact absurd h2 hpl
    · exact h1

/-- C7 witness: the invariant parts applied at concrete states: a next
call on the three-track state, a scan that finds one MP3, and a scan of
an invalid folder. -/
theorem playback_index_invariant_witness :
    indexInv (playNextTrack true threeTrackPlugin) ∧
    indexInv (scanAudioFolder
      (FolderLookup.folder [VaultChild.tfile "music/track.mp3" "mp3"])
      "music" threeTrackPlugin) ∧
    (scanAudioFolder FolderLookup.notFolder "music"
      threeTrackPlugin).currentTrackIndex = -1 ∧
    (scanAudioFolder
      (FolderLookup.folder [VaultChild.tfile "music/track.mp3" "mp3"])
      "music" threeTrackPlugin).currentTrackIndex = 0 :=
  ⟨playback_index_invariant.2.2.1 threeTrackPlugin true
      (Or.inr ⟨by decide, by decide⟩),
   playback_index_invariant.1
      (FolderLookup.folder [VaultChild.tfile "music/track.mp3" "mp3"])
      "music" threeTrackPlugin,
   playback_index_invariant.2.2.2.2.1 FolderLookup.notFolder "music"
      threeTrackPlugin rfl,
   playback_index_invariant.2.2.2.2.2
      (FolderLookup.folder [VaultChild.tfile "music/track.mp3" "mp3"])
      "music" threeTrackPlugin (by decide)⟩

end ObsidianLofi
